import Mathlib

/-!
Verification of the theme-persistence core of the repository
(src/src/context/ThemeContext.tsx) against its specification.

The TypeScript source is embedded shallowly:
* JS strings are Lean `String`s; `String.prototype.substring` and the
  single-occurrence `replace('#', '')` are modelled character-exactly.
* `parseInt(s, 16)` is modelled with its JS semantics: leading whitespace,
  an optional sign, an optional `0x`/`0X` marker, then the longest prefix of
  hexadecimal digits; the result is `none` when JS would produce `NaN`.
* The luminance test `(0.299*r + 0.587*g + 0.114*b)/255 > 0.5` is evaluated by
  JS in IEEE-754 double precision.  Away from exact ties of the rational value
  the double comparison provably agrees with the exact one (the accumulated
  rounding error is below `10^-12` while the distance to the threshold is at
  least `1/255000 > 10^-6`); at the finitely many exact ties reachable from
  parsed components (all in `[-255, 255]`) the double result was determined
  exhaustively.  `jsLumGtHalf` is therefore the exact-arithmetic comparison
  together with the five tie triples that the doubles classify as light.
* React state cells become a record `ThemeState`; `localStorage` becomes a
  record `LocalStore` of the nine `praxis-*` keys.  For the three keys holding
  JSON text the store keeps the outcome of `JSON.parse` on the stored text:
  `some none` is a stored string on which `JSON.parse` throws, and
  `some (some m)` is a stored string parsing to the object `m`; a value written
  with `JSON.stringify` parses back to the written object.
* A throwing load is an `Except.error` carrying the partially updated state
  (state updates issued before the throw are already enqueued in React).
* Remote writes are a trace: each `saveThemeToDatabase` dispatch appends its
  payload to `World.remote`.
-/

namespace Theme

/-- JS `String.prototype.substring(a, b)`: clamps both indices to the string
length and swaps them when given in decreasing order. -/
def jsSubstring (s : String) (a b : Nat) : String :=
  ⟨(s.data.take (max a b)).drop (min a b)⟩

/-- Remove the first occurrence of a hash character, the effect of the source's
`hexColor.replace('#', '')` (a string pattern replaces only the first match). -/
def removeFirstHashL : List Char → List Char
  | [] => []
  | c :: cs => if c = '#' then cs else c :: removeFirstHashL cs

/-- `replace('#', '')` on a JS string. -/
def jsReplaceHash (s : String) : String :=
  ⟨removeFirstHashL s.data⟩

/-- The JS whitespace characters `parseInt` skips, by code point: space, tab,
line feed, carriage return, vertical tab, form feed, no-break space (further
Unicode space characters never occur here).  A `Char` is determined by its
code point, so comparing `toNat` is comparing the characters. -/
def isJsSpace (c : Char) : Bool :=
  c.toNat == 32 || c.toNat == 9 || c.toNat == 10 || c.toNat == 13 ||
  c.toNat == 11 || c.toNat == 12 || c.toNat == 160

/-- Hexadecimal digit test, by code point. -/
def isHexDigitB (c : Char) : Bool :=
  (48 ≤ c.toNat && c.toNat ≤ 57) ||
  (97 ≤ c.toNat && c.toNat ≤ 102) ||
  (65 ≤ c.toNat && c.toNat ≤ 70)

/-- Value of a hexadecimal digit. -/
def hexVal (c : Char) : Nat :=
  if 48 ≤ c.toNat && c.toNat ≤ 57 then c.toNat - 48
  else if 97 ≤ c.toNat && c.toNat ≤ 102 then c.toNat - 87
  else if 65 ≤ c.toNat && c.toNat ≤ 70 then c.toNat - 55
  else 0

/-- Strip a leading `0x`/`0X` marker, as `parseInt` does for radix 16. -/
def strip0x : List Char → List Char
  | '0' :: c :: rest => if c = 'x' ∨ c = 'X' then rest else '0' :: c :: rest
  | l => l

/-- Accumulate the longest hexadecimal-digit prefix. -/
def hexFold (l : List Char) : Nat :=
  (l.takeWhile isHexDigitB).foldl (fun a c => 16 * a + hexVal c) 0

/-- Parse the longest hexadecimal-digit prefix; `none` when there is none
(JS `NaN`). -/
def parseHexFrom (l : List Char) : Option Nat :=
  match l with
  | c :: _ => if isHexDigitB c then some (hexFold l) else none
  | [] => none

/-- JS `parseInt(s, 16)`: skip whitespace, optional sign, optional `0x`,
then the longest hexadecimal prefix; `none` models `NaN`. -/
def parseInt16 (s : String) : Option Int :=
  match s.data.dropWhile isJsSpace with
  | '-' :: rest => (parseHexFrom (strip0x rest)).map (fun n => -(Int.ofNat n))
  | '+' :: rest => (parseHexFrom (strip0x rest)).map (fun n => Int.ofNat n)
  | l => (parseHexFrom (strip0x l)).map (fun n => Int.ofNat n)

/-- The spec's luminance formula `(0.299*r + 0.587*g + 0.114*b) / 255` in
exact rational arithmetic. -/
def luminance (r g b : Int) : ℚ :=
  (0.299 * (r : ℚ) + 0.587 * (g : ℚ) + 0.114 * (b : ℚ)) / 255

/-- The five component triples in `[-255, 255]` whose exact luminance is
exactly `1/2` but whose IEEE-754 double evaluation of the source expression
compares above `0.5`. -/
def floatTieLight (r g b : Int) : Bool :=
  (r == 218 && g == 58 && b == 248) ||
  (r == -119 && g == 245 && b == 169) ||
  (r == -12 && g == 234 && b == -55) ||
  (r == 14 && g == 226 && b == -82) ||
  (r == 253 && g == 113 && b == -127)

/-- The source's comparison `(0.299*r + 0.587*g + 0.114*b) / 255 > 0.5` as
JS evaluates it in double precision: the exact comparison, plus the tie
triples that rounding pushes above the threshold. -/
def jsLumGtHalf (r g b : Int) : Bool :=
  decide (299 * r + 587 * g + 114 * b > 127500) || floatTieLight r g b

/-- `isLightColor` from the source: strip a first `#` (the source's local
`hex`, inlined here), parse the three 2-character slices with
`parseInt(_, 16)`, and compare the luminance with `0.5`.  A `NaN` component
makes the comparison false (dark). -/
def isLightColor (hexColor : String) : Bool :=
  match parseInt16 (jsSubstring (jsReplaceHash hexColor) 0 2),
        parseInt16 (jsSubstring (jsReplaceHash hexColor) 2 4),
        parseInt16 (jsSubstring (jsReplaceHash hexColor) 4 6) with
  | some r, some g, some b => jsLumGtHalf r g b
  | _, _, _ => false

theorem luminance_gt_half_iff (r g b : Int) :
    luminance r g b > 1 / 2 ↔ 299 * r + 587 * g + 114 * b > 127500 := by
  unfold luminance
  rw [gt_iff_lt, lt_div_iff₀ (by norm_num : (0 : ℚ) < 255)]
  constructor
  · intro h
    have h' : (127500 : ℚ) < 1000 * (0.299 * (r : ℚ) + 0.587 * g + 0.114 * b) := by
      nlinarith
    have h'' : (127500 : ℚ) < ((299 * r + 587 * g + 114 * b : Int) : ℚ) := by
      push_cast
      nlinarith
    exact_mod_cast h''
  · intro h
    have h' : (127500 : ℚ) < ((299 * r + 587 * g + 114 * b : Int) : ℚ) := by
      exact_mod_cast h
    push_cast at h'
    nlinarith

/-- Status-color maps are JS objects keyed by the status strings: association
lists in property order. -/
abbrev StatusMap := List (String × String)

/-- JS object-spread update `{...m, [k]: v}`: if `k` is already a property its
value is replaced in place, otherwise `(k, v)` is appended. -/
def objSet (m : StatusMap) (k v : String) : StatusMap :=
  if m.any (fun p => p.1 = k) then
    m.map (fun p => if p.1 = k then (p.1, v) else p)
  else
    m ++ [(k, v)]

/-- JS property read `m[k]`. -/
def objGet (m : StatusMap) (k : String) : Option String :=
  (m.find? (fun p => p.1 = k)).map Prod.snd

/-- `DEFAULT_STATUS_COLORS` from the source. -/
def DEFAULT_STATUS_COLORS : StatusMap :=
  [("completed", "#F2FCE2"), ("in-progress", "#D3E4FD"),
   ("delayed", "#FFCCCB"), ("analysis", "#FEF7CD")]

/-- `DEFAULT_TEXT_COLORS` from the source. -/
def DEFAULT_TEXT_COLORS : StatusMap :=
  [("completed", "#1e3a1e"), ("in-progress", "#1e3a5a"),
   ("delayed", "#8B0000"), ("analysis", "#3a351e")]

/-- The four fixed status keys of `StatusColorsType`. -/
def STATUS_KEYS : List String := ["completed", "in-progress", "delayed", "analysis"]

/-- The provider's React state cells: the PreferenceSet plus the
`initialized` flag. -/
structure ThemeState where
  headerColor : String
  avatarColor : String
  textColor : String
  mainColor : String
  buttonColor : String
  caseStatusColors : StatusMap
  taskStatusColors : StatusMap
  caseStatusTextColors : StatusMap
  currentStatusView : String
  initialized : Bool
deriving Repr, DecidableEq

/-- The `useState` initial values of the provider. -/
def initialState : ThemeState :=
  { headerColor := "#8B9474"
    avatarColor := "#F5A65B"
    textColor := "text-white"
    mainColor := "#F3F4F6"
    buttonColor := "#8B9474"
    caseStatusColors := DEFAULT_STATUS_COLORS
    taskStatusColors := DEFAULT_STATUS_COLORS
    caseStatusTextColors := DEFAULT_TEXT_COLORS
    currentStatusView := "cases"
    initialized := false }

/-- `localStorage`, restricted to the nine `praxis-*` keys the source uses.
Scalar keys hold the stored string.  The three JSON keys hold the outcome of
`JSON.parse` on the stored text: `some none` is a stored string on which
`JSON.parse` throws, `some (some m)` one that parses to the object `m`;
`JSON.stringify m` is stored as `some (some m)`. -/
structure LocalStore where
  headerColor : Option String := none
  avatarColor : Option String := none
  textColor : Option String := none
  mainColor : Option String := none
  buttonColor : Option String := none
  caseStatusColors : Option (Option StatusMap) := none
  taskStatusColors : Option (Option StatusMap) := none
  caseStatusTextColors : Option (Option StatusMap) := none
  statusView : Option String := none
deriving Repr, DecidableEq

/-- JS `x || d` on a `getItem` result or an optional payload string: `null`
and the empty string are falsy and give the default. -/
def jsOr (v : Option String) (d : String) : String :=
  match v with
  | none => d
  | some s => if s = "" then d else s

/-- The remote `theme_settings` JSON payload (`ThemeSettings` in the source):
every field optional. -/
structure ThemeSettings where
  headerColor : Option String := none
  avatarColor : Option String := none
  textColor : Option String := none
  mainColor : Option String := none
  buttonColor : Option String := none
  caseStatusColors : Option StatusMap := none
  taskStatusColors : Option StatusMap := none
  caseStatusTextColors : Option StatusMap := none
deriving Repr, DecidableEq

/-- Lines 160-169 of the source: adopt each payload field, defaulting
per field.  Strings go through JS `||` (empty string falsy); a present
object (even empty) is truthy and adopted. -/
def applySettings (s : ThemeSettings) (st : ThemeState) : ThemeState :=
  { st with
    headerColor := jsOr s.headerColor "#8B9474"
    avatarColor := jsOr s.avatarColor "#F5A65B"
    textColor := jsOr s.textColor "text-white"
    mainColor := jsOr s.mainColor "#F3F4F6"
    buttonColor := jsOr s.buttonColor "#8B9474"
    caseStatusColors := s.caseStatusColors.getD DEFAULT_STATUS_COLORS
    taskStatusColors := s.taskStatusColors.getD DEFAULT_STATUS_COLORS
    caseStatusTextColors := s.caseStatusTextColors.getD DEFAULT_TEXT_COLORS }

/-- `loadFromLocalStorage`.  State updates are applied in source order; a
`JSON.parse` throw aborts the function with the partially updated state
(`Except.error`), since the `setXState` calls already issued stay applied. -/
def loadFromLocalStorage (ls : LocalStore) (st : ThemeState) :
    Except ThemeState ThemeState :=
  let st1 := { st with
    headerColor := jsOr ls.headerColor "#8B9474"
    avatarColor := jsOr ls.avatarColor "#F5A65B"
    textColor :=
      if isLightColor (jsOr ls.headerColor "#8B9474") then "text-gray-800"
      else "text-white"
    mainColor := jsOr ls.mainColor "#F3F4F6"
    buttonColor := jsOr ls.buttonColor "#8B9474" }
  match ls.caseStatusColors with
  | some none => .error st1
  | cc =>
    let st2 := { st1 with
      caseStatusColors :=
        match cc with | some (some m) => m | _ => DEFAULT_STATUS_COLORS }
    match ls.taskStatusColors with
    | some none => .error st2
    | tc =>
      let st3 := { st2 with
        taskStatusColors :=
          match tc with | some (some m) => m | _ => DEFAULT_STATUS_COLORS }
      match ls.caseStatusTextColors with
      | some none => .error st3
      | xc =>
        let st4 := { st3 with
          caseStatusTextColors :=
            match xc with | some (some m) => m | _ => DEFAULT_TEXT_COLORS }
        .ok { st4 with currentStatusView := jsOr ls.statusView "cases" }

/-- The environment of one run of `loadThemeSettings`: no session, a thrown
awaited call, or a fetch result carrying the error code (if any) and
`profile?.theme_settings`. -/
inductive RemoteOutcome where
  | noUser
  | throws
  | result (error : Option String) (settings : Option ThemeSettings)
deriving Repr, DecidableEq

/-- The fall-back pattern of lines 142-144 / 155-157 / 171 followed by the
catch at 173-176 and line 177: try `loadFromLocalStorage`; on success set
`initialized`; on a throw the catch calls `loadFromLocalStorage` again, and
only if that succeeds is line 177 reached — a second throw escapes the catch
and `initialized` is never set. -/
def localThenInit (ls : LocalStore) (st : ThemeState) :
    Except ThemeState ThemeState :=
  match loadFromLocalStorage ls st with
  | .ok st' => .ok { st' with initialized := true }
  | .error st' =>
    match loadFromLocalStorage ls st' with
    | .ok st'' => .ok { st'' with initialized := true }
    | .error st'' => .error st''

/-- Lines 160-177 with a non-fatal fetch result: a present
`profile?.theme_settings` payload is adopted, an absent one falls back to the
local cache; either way line 177 sets `initialized` (unless the fall-back
crashes). -/
def settingsOrLocal (settings : Option ThemeSettings) (ls : LocalStore)
    (st : ThemeState) : Except ThemeState ThemeState :=
  match settings with
  | some s => .ok { applySettings s st with initialized := true }
  | none => localThenInit ls st

/-- `loadThemeSettings`.  `Except.ok` is a completed run (line 143 or 177
reached), `Except.error` a run crashing with an uncaught throw. -/
def loadThemeSettings (r : RemoteOutcome) (ls : LocalStore) (st : ThemeState) :
    Except ThemeState ThemeState :=
  match r with
  | .noUser => localThenInit ls st
  | .throws =>
    -- the try block threw before reaching any local load; the catch makes
    -- the single local attempt, then line 177 runs (or the throw escapes)
    match loadFromLocalStorage ls st with
    | .ok st' => .ok { st' with initialized := true }
    | .error st' => .error st'
  | .result (some code) settings =>
    -- line 153: `error && error.code !== 'PGRST116'` falls back to the cache
    if code = "PGRST116" then settingsOrLocal settings ls st
    else localThenInit ls st
  | .result none settings => settingsOrLocal settings ls st

/-- The payload of a `saveThemeToDatabase` call: the full object literal each
setter builds (eight fields; `currentStatusView` has no slot). -/
structure SavedSettings where
  headerColor : String
  avatarColor : String
  textColor : String
  mainColor : String
  buttonColor : String
  caseStatusColors : StatusMap
  taskStatusColors : StatusMap
  caseStatusTextColors : StatusMap
deriving Repr, DecidableEq

/-- Provider state, local storage, and the trace of dispatched remote
writes. -/
structure World where
  st : ThemeState
  ls : LocalStore
  remote : List SavedSettings
deriving Repr, DecidableEq

/-- Fresh mount: default state, empty storage, no remote writes. -/
def initialWorld : World := ⟨initialState, {}, []⟩

def setHeaderColor (color : String) (w : World) : World :=
  let newTextColor := if isLightColor color then "text-gray-800" else "text-white"
  { st := { w.st with headerColor := color, textColor := newTextColor }
    ls := { w.ls with headerColor := some color }
    remote :=
      if w.st.initialized then
        w.remote ++ [{
          headerColor := color
          avatarColor := w.st.avatarColor
          textColor := newTextColor
          mainColor := w.st.mainColor
          buttonColor := w.st.buttonColor
          caseStatusColors := w.st.caseStatusColors
          taskStatusColors := w.st.taskStatusColors
          caseStatusTextColors := w.st.caseStatusTextColors }]
      else w.remote }

def setAvatarColor (color : String) (w : World) : World :=
  { st := { w.st with avatarColor := color }
    ls := { w.ls with avatarColor := some color }
    remote :=
      if w.st.initialized then
        w.remote ++ [{
          headerColor := w.st.headerColor
          avatarColor := color
          textColor := w.st.textColor
          mainColor := w.st.mainColor
          buttonColor := w.st.buttonColor
          caseStatusColors := w.st.caseStatusColors
          taskStatusColors := w.st.taskStatusColors
          caseStatusTextColors := w.st.caseStatusTextColors }]
      else w.remote }

def setTextColor (color : String) (w : World) : World :=
  { st := { w.st with textColor := color }
    ls := { w.ls with textColor := some color }
    remote :=
      if w.st.initialized then
        w.remote ++ [{
          headerColor := w.st.headerColor
          avatarColor := w.st.avatarColor
          textColor := color
          mainColor := w.st.mainColor
          buttonColor := w.st.buttonColor
          caseStatusColors := w.st.caseStatusColors
          taskStatusColors := w.st.taskStatusColors
          caseStatusTextColors := w.st.caseStatusTextColors }]
      else w.remote }

def setMainColor (color : String) (w : World) : World :=
  { st := { w.st with mainColor := color }
    ls := { w.ls with mainColor := some color }
    remote :=
      if w.st.initialized then
        w.remote ++ [{
          headerColor := w.st.headerColor
          avatarColor := w.st.avatarColor
          textColor := w.st.textColor
          mainColor := color
          buttonColor := w.st.buttonColor
          caseStatusColors := w.st.caseStatusColors
          taskStatusColors := w.st.taskStatusColors
          caseStatusTextColors := w.st.caseStatusTextColors }]
      else w.remote }

def setButtonColor (color : String) (w : World) : World :=
  { st := { w.st with buttonColor := color }
    ls := { w.ls with buttonColor := some color }
    remote :=
      if w.st.initialized then
        w.remote ++ [{
          headerColor := w.st.headerColor
          avatarColor := w.st.avatarColor
          textColor := w.st.textColor
          mainColor := w.st.mainColor
          buttonColor := color
          caseStatusColors := w.st.caseStatusColors
          taskStatusColors := w.st.taskStatusColors
          caseStatusTextColors := w.st.caseStatusTextColors }]
      else w.remote }

def setCaseStatusColor (status color : String) (w : World) : World :=
  let newColors := objSet w.st.caseStatusColors status color
  { st := { w.st with caseStatusColors := newColors }
    ls := { w.ls with caseStatusColors := some (some newColors) }
    remote :=
      if w.st.initialized then
        w.remote ++ [{
          headerColor := w.st.headerColor
          avatarColor := w.st.avatarColor
          textColor := w.st.textColor
          mainColor := w.st.mainColor
          buttonColor := w.st.buttonColor
          caseStatusColors := newColors
          taskStatusColors := w.st.taskStatusColors
          caseStatusTextColors := w.st.caseStatusTextColors }]
      else w.remote }

def setTaskStatusColor (status color : String) (w : World) : World :=
  let newColors := objSet w.st.taskStatusColors status color
  { st := { w.st with taskStatusColors := newColors }
    ls := { w.ls with taskStatusColors := some (some newColors) }
    remote :=
      if w.st.initialized then
        w.remote ++ [{
          headerColor := w.st.headerColor
          avatarColor := w.st.avatarColor
          textColor := w.st.textColor
          mainColor := w.st.mainColor
          buttonColor := w.st.buttonColor
          caseStatusColors := w.st.caseStatusColors
          taskStatusColors := newColors
          caseStatusTextColors := w.st.caseStatusTextColors }]
      else w.remote }

def setCaseStatusTextColor (status color : String) (w : World) : World :=
  let newColors := objSet w.st.caseStatusTextColors status color
  { st := { w.st with caseStatusTextColors := newColors }
    ls := { w.ls with caseStatusTextColors := some (some newColors) }
    remote :=
      if w.st.initialized then
        w.remote ++ [{
          headerColor := w.st.headerColor
          avatarColor := w.st.avatarColor
          textColor := w.st.textColor
          mainColor := w.st.mainColor
          buttonColor := w.st.buttonColor
          caseStatusColors := w.st.caseStatusColors
          taskStatusColors := w.st.taskStatusColors
          caseStatusTextColors := newColors }]
      else w.remote }

def setCurrentStatusView (view : String) (w : World) : World :=
  { st := { w.st with currentStatusView := view }
    ls := { w.ls with statusView := some view }
    remote := w.remote }

/-- Mount-time load as a world transition.  A crashing load leaves its
partially applied state (the rejected promise does not undo React updates);
no path of the load dispatches a remote write. -/
def initializeWorld (r : RemoteOutcome) (w : World) : World :=
  match loadThemeSettings r w.ls w.st with
  | .ok st' => { w with st := st' }
  | .error st' => { w with st := st' }

/-- The operations of the provider. -/
inductive Op where
  | setHeader (c : String)
  | setAvatar (c : String)
  | setText (c : String)
  | setMain (c : String)
  | setButton (c : String)
  | setCaseStatus (k c : String)
  | setTaskStatus (k c : String)
  | setCaseStatusText (k c : String)
  | setView (v : String)
  | init (r : RemoteOutcome)
deriving Repr

def runOp : Op → World → World
  | .setHeader c => setHeaderColor c
  | .setAvatar c => setAvatarColor c
  | .setText c => setTextColor c
  | .setMain c => setMainColor c
  | .setButton c => setButtonColor c
  | .setCaseStatus k c => setCaseStatusColor k c
  | .setTaskStatus k c => setTaskStatusColor k c
  | .setCaseStatusText k c => setCaseStatusTextColor k c
  | .setView v => setCurrentStatusView v
  | .init r => initializeWorld r

def run (ops : List Op) (w : World) : World :=
  ops.foldl (fun w op => runOp op w) w

/-! ### Character and parsing lemmas -/

theorem hexVal_lt_16 (c : Char) : hexVal c < 16 := by
  unfold hexVal
  split
  · rename_i h
    rw [Bool.and_eq_true, decide_eq_true_eq, decide_eq_true_eq] at h
    omega
  · split
    · rename_i h
      rw [Bool.and_eq_true, decide_eq_true_eq, decide_eq_true_eq] at h
      omega
    · split
      · rename_i h
        rw [Bool.and_eq_true, decide_eq_true_eq, decide_eq_true_eq] at h
        omega
      · omega

theorem not_space_of_hex {c : Char} (h : isHexDigitB c = true) :
    isJsSpace c = false := by
  unfold isHexDigitB at h
  simp only [Bool.or_eq_true, Bool.and_eq_true, decide_eq_true_eq] at h
  unfold isJsSpace
  simp only [Bool.or_eq_false_iff, beq_eq_false_iff_ne, ne_eq]
  omega

theorem ne_of_hex {c : Char} (h : isHexDigitB c = true) :
    c ≠ '-' ∧ c ≠ '+' ∧ c ≠ 'x' ∧ c ≠ 'X' ∧ c ≠ '#' := by
  refine ⟨?_, ?_, ?_, ?_, ?_⟩ <;>
    (intro heq; rw [heq] at h; exact absurd h (by decide))

/-- `parseInt(s, 16)` on a string of exactly two hexadecimal digits. -/
theorem parseInt16_two_hex {a b : Char} (ha : isHexDigitB a = true)
    (hb : isHexDigitB b = true) :
    parseInt16 ⟨[a, b]⟩ = some ((16 * hexVal a + hexVal b : Nat) : Int) := by
  have hsp := not_space_of_hex ha
  obtain ⟨hna, -, -, -, -⟩ := ne_of_hex ha
  obtain ⟨-, hpa, -, -, -⟩ := ne_of_hex ha
  obtain ⟨-, -, hx, hX, -⟩ := ne_of_hex hb
  unfold parseInt16
  simp only [List.dropWhile_cons, hsp, Bool.false_eq_true, if_false]
  have hstrip : strip0x [a, b] = [a, b] := by
    by_cases h0 : a = '0'
    · subst h0
      show (if b = 'x' ∨ b = 'X' then ([] : List Char) else ['0', b]) = ['0', b]
      rw [if_neg]
      rintro (rfl | rfl)
      · exact hx rfl
      · exact hX rfl
    · unfold strip0x
      split
      · simp_all
      · rfl
  have hbody : parseHexFrom [a, b] = some (16 * hexVal a + hexVal b) := by
    unfold parseHexFrom
    simp only [ha, if_true]
    unfold hexFold
    simp [List.takeWhile, ha, hb]
  split
  · rename_i heq
    rw [List.cons.injEq] at heq
    exact absurd heq.1 hna
  · rename_i heq
    rw [List.cons.injEq] at heq
    exact absurd heq.1 hpa
  · rw [hstrip, hbody]
    rfl

theorem removeFirstHashL_of_no_hash {l : List Char} (h : ∀ c ∈ l, c ≠ '#') :
    removeFirstHashL l = l := by
  induction l with
  | nil => rfl
  | cons c cs ih =>
    unfold removeFirstHashL
    rw [if_neg (h c (List.mem_cons_self c cs))]
    rw [ih (fun c hc => h c (List.mem_cons_of_mem _ hc))]

/-- `isLightColor` on six hexadecimal digits decodes the three components and
applies the double-precision comparison. -/
theorem isLightColor_decode (c0 c1 c2 c3 c4 c5 : Char)
    (h0 : isHexDigitB c0 = true) (h1 : isHexDigitB c1 = true)
    (h2 : isHexDigitB c2 = true) (h3 : isHexDigitB c3 = true)
    (h4 : isHexDigitB c4 = true) (h5 : isHexDigitB c5 = true) :
    isLightColor ⟨[c0, c1, c2, c3, c4, c5]⟩ =
      jsLumGtHalf ((16 * hexVal c0 + hexVal c1 : Nat) : Int)
        ((16 * hexVal c2 + hexVal c3 : Nat) : Int)
        ((16 * hexVal c4 + hexVal c5 : Nat) : Int) := by
  have hno : ∀ c ∈ [c0, c1, c2, c3, c4, c5], c ≠ '#' := by
    intro c hc
    simp only [List.mem_cons, List.not_mem_nil, or_false] at hc
    rcases hc with rfl | rfl | rfl | rfl | rfl | rfl
    · exact (ne_of_hex h0).2.2.2.2
    · exact (ne_of_hex h1).2.2.2.2
    · exact (ne_of_hex h2).2.2.2.2
    · exact (ne_of_hex h3).2.2.2.2
    · exact (ne_of_hex h4).2.2.2.2
    · exact (ne_of_hex h5).2.2.2.2
  unfold isLightColor
  have hrep : jsReplaceHash ⟨[c0, c1, c2, c3, c4, c5]⟩ = ⟨[c0, c1, c2, c3, c4, c5]⟩ := by
    unfold jsReplaceHash
    rw [removeFirstHashL_of_no_hash hno]
  rw [hrep]
  have e02 : jsSubstring ⟨[c0, c1, c2, c3, c4, c5]⟩ 0 2 = ⟨[c0, c1]⟩ := rfl
  have e24 : jsSubstring ⟨[c0, c1, c2, c3, c4, c5]⟩ 2 4 = ⟨[c2, c3]⟩ := rfl
  have e46 : jsSubstring ⟨[c0, c1, c2, c3, c4, c5]⟩ 4 6 = ⟨[c4, c5]⟩ := rfl
  rw [e02, e24, e46, parseInt16_two_hex h0 h1, parseInt16_two_hex h2 h3,
    parseInt16_two_hex h4 h5]

theorem isLightColor_hash_cons (l : List Char) (h : ∀ c ∈ l, c ≠ '#') :
    isLightColor ⟨'#' :: l⟩ = isLightColor ⟨l⟩ := by
  unfold isLightColor jsReplaceHash
  have : removeFirstHashL ('#' :: l) = l := by
    unfold removeFirstHashL
    rw [if_pos rfl]
  rw [this, removeFirstHashL_of_no_hash h]

/-- With components in `[0, 255]`, the double-precision comparison is the
exact one except at the single reachable tie `(218, 58, 248)`. -/
theorem jsLumGtHalf_eq_iff {r g b : Int} (hr0 : 0 ≤ r) (hg0 : 0 ≤ g) (hb0 : 0 ≤ b) :
    jsLumGtHalf r g b = true ↔
      luminance r g b > 1 / 2 ∨ (r, g, b) = (218, 58, 248) := by
  unfold jsLumGtHalf floatTieLight
  rw [luminance_gt_half_iff]
  simp only [Bool.or_eq_true, decide_eq_true_eq, Bool.and_eq_true, beq_iff_eq,
    Prod.mk.injEq]
  omega

/-! ### Association-list lemmas for the object-spread update -/

theorem find?_map_set (m : StatusMap) (k v : String)
    (hmem : m.any (fun p => p.1 = k) = true) :
    (m.map (fun p => if p.1 = k then (p.1, v) else p)).find? (fun p => p.1 = k) =
      some (k, v) := by
  induction m with
  | nil => simp at hmem
  | cons p t ih =>
    by_cases hpk : p.1 = k
    · simp only [List.map_cons, if_pos hpk]
      rw [List.find?_cons_of_pos _ (by simp [hpk])]
      rw [hpk]
    · simp only [List.map_cons, if_neg hpk]
      rw [List.find?_cons_of_neg _ (by simp [hpk])]
      apply ih
      simp only [List.any_cons, Bool.or_eq_true] at hmem
      rcases hmem with hm | hm
      · exact absurd (by simpa using hm) hpk
      · exact hm

theorem find?_append_single (m : StatusMap) (k v : String)
    (hmem : m.any (fun p => p.1 = k) = false) :
    (m ++ [(k, v)]).find? (fun p => p.1 = k) = some (k, v) := by
  induction m with
  | nil =>
    rw [List.nil_append]
    exact List.find?_cons_of_pos _ (by simp)
  | cons p t ih =>
    simp only [List.any_cons, Bool.or_eq_false_iff] at hmem
    rw [List.cons_append, List.find?_cons_of_neg _ (by simp [hmem.1])]
    exact ih hmem.2

theorem objGet_objSet_self (m : StatusMap) (k v : String) :
    objGet (objSet m k v) k = some v := by
  unfold objGet objSet
  by_cases hmem : m.any (fun p => p.1 = k) = true
  · rw [if_pos hmem, find?_map_set m k v hmem]
    rfl
  · rw [if_neg hmem,
      find?_append_single m k v (Bool.eq_false_iff.mpr hmem)]
    rfl

theorem find?_map_set_ne (m : StatusMap) (k v k' : String) (hne : k' ≠ k) :
    (m.map (fun p => if p.1 = k then (p.1, v) else p)).find? (fun p => p.1 = k') =
      (m.find? (fun p => p.1 = k')).map (fun p => if p.1 = k then (p.1, v) else p) := by
  induction m with
  | nil => rfl
  | cons p t ih =>
    by_cases hpk' : p.1 = k'
    · have hpk : ¬ p.1 = k := fun hc => hne (hpk'.symm.trans hc)
      simp only [List.map_cons, if_neg hpk]
      rw [List.find?_cons_of_pos _ (by simp [hpk']),
          List.find?_cons_of_pos _ (by simp [hpk'])]
      simp [if_neg hpk]
    · have hhead : ((if p.1 = k then (p.1, v) else p) : String × String).1 = p.1 := by
        split <;> rfl
      simp only [List.map_cons]
      rw [List.find?_cons_of_neg _ (by simp [hhead, hpk']),
          List.find?_cons_of_neg _ (by simp [hpk'])]
      exact ih

theorem objGet_objSet_ne (m : StatusMap) (k v k' : String) (hne : k' ≠ k) :
    objGet (objSet m k v) k' = objGet m k' := by
  unfold objGet objSet
  by_cases hmem : m.any (fun p => p.1 = k) = true
  · rw [if_pos hmem, find?_map_set_ne m k v k' hne]
    rcases hf : m.find? (fun p => p.1 = k') with _ | p
    · rw [hf]
      rfl
    · have hps := List.find?_some hf
      simp only [decide_eq_true_eq] at hps
      have hpk : ¬ p.1 = k := fun hc => hne (hps.symm.trans hc)
      rw [hf]
      simp [hpk]
  · rw [if_neg hmem, List.find?_append]
    have hlast : List.find? (fun p => p.1 = k') [(k, v)] = none := by
      rw [List.find?_cons_of_neg _ (by simp; exact fun hc => hne hc.symm)]
      rfl
    rw [hlast]
    simp

/-! ### Load lemmas -/

/-- What a cached JSON map key reads back as: the parsed object if the key is
present and parses, the default otherwise. -/
def readCache (v : Option (Option StatusMap)) (d : StatusMap) : StatusMap :=
  match v with
  | some (some m) => m
  | _ => d

/-- When the three cached JSON values (if present) parse, the local load
completes and produces exactly the field-by-field read-back; `textColor` is
recomputed from the cached header color, not read from its own key. -/
theorem loadFromLocalStorage_ok (ls : LocalStore) (st : ThemeState)
    (hcc : ls.caseStatusColors ≠ some none)
    (htc : ls.taskStatusColors ≠ some none)
    (hxc : ls.caseStatusTextColors ≠ some none) :
    loadFromLocalStorage ls st = .ok
      { headerColor := jsOr ls.headerColor "#8B9474"
        avatarColor := jsOr ls.avatarColor "#F5A65B"
        textColor :=
          if isLightColor (jsOr ls.headerColor "#8B9474") then "text-gray-800"
          else "text-white"
        mainColor := jsOr ls.mainColor "#F3F4F6"
        buttonColor := jsOr ls.buttonColor "#8B9474"
        caseStatusColors := readCache ls.caseStatusColors DEFAULT_STATUS_COLORS
        taskStatusColors := readCache ls.taskStatusColors DEFAULT_STATUS_COLORS
        caseStatusTextColors := readCache ls.caseStatusTextColors DEFAULT_TEXT_COLORS
        currentStatusView := jsOr ls.statusView "cases"
        initialized := st.initialized } := by
  rcases hc : ls.caseStatusColors with _ | (_ | mc) <;>
    rcases ht : ls.taskStatusColors with _ | (_ | mt) <;>
      rcases hx : ls.caseStatusTextColors with _ | (_ | mx) <;>
        simp_all [loadFromLocalStorage, readCache]

theorem initializeWorld_remote (r : RemoteOutcome) (w : World) :
    (initializeWorld r w).remote = w.remote := by
  unfold initializeWorld
  rcases h : loadThemeSettings r w.ls w.st with st' | st' <;> simp

/-! ### The claims -/

/-- C1: refuted by the code (the claim itself is the spec's stated guarantee).
With no session and a cached `praxis-case-status-colors` string that is not
valid JSON, `JSON.parse` throws inside `loadFromLocalStorage`; the catch block
calls `loadFromLocalStorage` again, which throws again, so the load crashes
and `initialized` is never set.  With a parseable cache the load completes
and sets `initialized`. -/
theorem loadThemeSettings_crashes_on_unparseable_cache :
    (∃ st, loadThemeSettings .noUser { caseStatusColors := some none } initialState =
        .error st ∧ st.initialized = false) ∧
    (∃ st, loadThemeSettings .noUser {} initialState = .ok st ∧
        st.initialized = true) :=
  ⟨⟨_, rfl, rfl⟩, ⟨_, rfl, rfl⟩⟩

/-- C2 counterexample: set `textColor` via its setter, then reload from the
cache with no session: the loaded `textColor` is recomputed from the cached
header color (`text-gray-800`), not the value that was set. -/
theorem roundtrip_drops_textColor :
    (setTextColor "#123456" initialWorld).st.textColor = "#123456" ∧
    (setTextColor "#123456" initialWorld).ls.textColor = some "#123456" ∧
    ∃ st', loadFromLocalStorage (setTextColor "#123456" initialWorld).ls initialState =
        .ok st' ∧ st'.textColor = "text-gray-800" ∧ st'.textColor ≠ "#123456" :=
  ⟨rfl, rfl, _, rfl, rfl, by decide⟩

/-- C3 counterexample: `#DA3AF8` decodes to `(218, 58, 248)`, whose exact
luminance is exactly `1/2`; the double-precision comparison classifies it as
light, against the claim's boundary clause.  And `FFFFF` (wrong length, five
characters) is classified light, against the claim's malformed-input
clause. -/
theorem isLightColor_claim_fails :
    (isLightColor "#DA3AF8" = true ∧ luminance 218 58 248 = 1 / 2) ∧
    (isLightColor "FFFFF" = true ∧ ("FFFFF" : String).data.length ≠ 6) :=
  ⟨⟨rfl, by norm_num [luminance]⟩, rfl, by decide⟩

/-- C3 (amended): on a valid 6-hex-digit string (optionally `#`-prefixed),
`isLightColor` is true exactly when the exact luminance of the decoded
components exceeds `1/2` or the components are the tie `(218, 58, 248)` that
double rounding classifies as light; white is light and black is dark; a
malformed input on which some 2-character component slice has no hexadecimal
prefix (so `parseInt` gives `NaN`) is dark. -/
theorem isLightColor_spec (c0 c1 c2 c3 c4 c5 : Char)
    (h0 : isHexDigitB c0 = true) (h1 : isHexDigitB c1 = true)
    (h2 : isHexDigitB c2 = true) (h3 : isHexDigitB c3 = true)
    (h4 : isHexDigitB c4 = true) (h5 : isHexDigitB c5 = true) :
    (isLightColor ⟨[c0, c1, c2, c3, c4, c5]⟩ = true ↔
      luminance ((16 * hexVal c0 + hexVal c1 : Nat) : Int)
          ((16 * hexVal c2 + hexVal c3 : Nat) : Int)
          ((16 * hexVal c4 + hexVal c5 : Nat) : Int) > 1 / 2 ∨
        (((16 * hexVal c0 + hexVal c1 : Nat) : Int),
         ((16 * hexVal c2 + hexVal c3 : Nat) : Int),
         ((16 * hexVal c4 + hexVal c5 : Nat) : Int)) = (218, 58, 248)) ∧
    isLightColor ⟨'#' :: [c0, c1, c2, c3, c4, c5]⟩ =
      isLightColor ⟨[c0, c1, c2, c3, c4, c5]⟩ ∧
    isLightColor "#FFFFFF" = true ∧
    isLightColor "#000000" = false ∧
    (∀ s : String,
      (parseInt16 (jsSubstring (jsReplaceHash s) 0 2) = none ∨
       parseInt16 (jsSubstring (jsReplaceHash s) 2 4) = none ∨
       parseInt16 (jsSubstring (jsReplaceHash s) 4 6) = none) →
      isLightColor s = false) := by
  have hno : ∀ c ∈ [c0, c1, c2, c3, c4, c5], c ≠ '#' := by
    intro c hc
    simp only [List.mem_cons, List.not_mem_nil, or_false] at hc
    rcases hc with rfl | rfl | rfl | rfl | rfl | rfl
    · exact (ne_of_hex h0).2.2.2.2
    · exact (ne_of_hex h1).2.2.2.2
    · exact (ne_of_hex h2).2.2.2.2
    · exact (ne_of_hex h3).2.2.2.2
    · exact (ne_of_hex h4).2.2.2.2
    · exact (ne_of_hex h5).2.2.2.2
  refine ⟨?_, ?_, rfl, rfl, ?_⟩
  · rw [isLightColor_decode c0 c1 c2 c3 c4 c5 h0 h1 h2 h3 h4 h5]
    exact jsLumGtHalf_eq_iff (Int.ofNat_nonneg _) (Int.ofNat_nonneg _)
      (Int.ofNat_nonneg _)
  · exact isLightColor_hash_cons [c0, c1, c2, c3, c4, c5] hno
  · intro s hs
    unfold isLightColor
    rcases hr : parseInt16 (jsSubstring (jsReplaceHash s) 0 2) with _ | r <;>
      rcases hg : parseInt16 (jsSubstring (jsReplaceHash s) 2 4) with _ | g <;>
        rcases hb : parseInt16 (jsSubstring (jsReplaceHash s) 4 6) with _ | b <;>
          simp_all

/-- Witness for C3: all-`F` digits give pure white, which is light. -/
theorem isLightColor_spec_witness :
    isLightColor ⟨['F', 'F', 'F', 'F', 'F', 'F']⟩ = true :=
  ((isLightColor_spec 'F' 'F' 'F' 'F' 'F' 'F' rfl rfl rfl rfl rfl rfl).1).mpr
    (Or.inl (show luminance 255 255 255 > 1 / 2 by norm_num [luminance]))

/-- C4: `setHeaderColor` sets the header color, recomputes `textColor` by the
contrast rule (black gives white text, white gives dark text), and when
`initialized` dispatches exactly one remote write carrying both new values. -/
theorem setHeaderColor_contrast_and_write (w : World) (c : String)
    (hinit : w.st.initialized = true) :
    (setHeaderColor c w).st.headerColor = c ∧
    (setHeaderColor c w).st.textColor =
      (if isLightColor c then "text-gray-800" else "text-white") ∧
    (setHeaderColor "#000000" w).st.textColor = "text-white" ∧
    (setHeaderColor "#FFFFFF" w).st.textColor = "text-gray-800" ∧
    ∃ p : SavedSettings, (setHeaderColor c w).remote = w.remote ++ [p] ∧
      p.headerColor = c ∧
      p.textColor = (if isLightColor c then "text-gray-800" else "text-white") := by
  refine ⟨rfl, rfl, rfl, rfl,
    ⟨{ headerColor := c
       avatarColor := w.st.avatarColor
       textColor := if isLightColor c then "text-gray-800" else "text-white"
       mainColor := w.st.mainColor
       buttonColor := w.st.buttonColor
       caseStatusColors := w.st.caseStatusColors
       taskStatusColors := w.st.taskStatusColors
       caseStatusTextColors := w.st.caseStatusTextColors }, ?_, rfl, rfl⟩⟩
  unfold setHeaderColor
  rw [hinit]
  simp

/-- Witness for C4. -/
theorem setHeaderColor_contrast_and_write_witness :
    (setHeaderColor "#000000" { initialWorld with
        st := { initialState with initialized := true } }).st.textColor =
      "text-white" :=
  (setHeaderColor_contrast_and_write { initialWorld with
      st := { initialState with initialized := true } } "#000000" rfl).2.2.1

/-- C5: while `initialized` is false, every setter leaves the remote trace
unchanged while still updating the in-memory field and its local-cache key. -/
theorem setters_are_local_before_init (w : World) (c k v : String)
    (h : w.st.initialized = false) :
    ((setHeaderColor c w).remote = w.remote ∧
      (setHeaderColor c w).st.headerColor = c ∧
      (setHeaderColor c w).ls.headerColor = some c) ∧
    ((setAvatarColor c w).remote = w.remote ∧
      (setAvatarColor c w).st.avatarColor = c ∧
      (setAvatarColor c w).ls.avatarColor = some c) ∧
    ((setTextColor c w).remote = w.remote ∧
      (setTextColor c w).st.textColor = c ∧
      (setTextColor c w).ls.textColor = some c) ∧
    ((setMainColor c w).remote = w.remote ∧
      (setMainColor c w).st.mainColor = c ∧
      (setMainColor c w).ls.mainColor = some c) ∧
    ((setButtonColor c w).remote = w.remote ∧
      (setButtonColor c w).st.buttonColor = c ∧
      (setButtonColor c w).ls.buttonColor = some c) ∧
    ((setCaseStatusColor k c w).remote = w.remote ∧
      (setCaseStatusColor k c w).st.caseStatusColors =
        objSet w.st.caseStatusColors k c ∧
      (setCaseStatusColor k c w).ls.caseStatusColors =
        some (some (objSet w.st.caseStatusColors k c))) ∧
    ((setTaskStatusColor k c w).remote = w.remote ∧
      (setTaskStatusColor k c w).st.taskStatusColors =
        objSet w.st.taskStatusColors k c ∧
      (setTaskStatusColor k c w).ls.taskStatusColors =
        some (some (objSet w.st.taskStatusColors k c))) ∧
    ((setCaseStatusTextColor k c w).remote = w.remote ∧
      (setCaseStatusTextColor k c w).st.caseStatusTextColors =
        objSet w.st.caseStatusTextColors k c ∧
      (setCaseStatusTextColor k c w).ls.caseStatusTextColors =
        some (some (objSet w.st.caseStatusTextColors k c))) ∧
    ((setCurrentStatusView v w).remote = w.remote ∧
      (setCurrentStatusView v w).st.currentStatusView = v ∧
      (setCurrentStatusView v w).ls.statusView = some v) := by
  unfold setHeaderColor setAvatarColor setTextColor setMainColor setButtonColor
    setCaseStatusColor setTaskStatusColor setCaseStatusTextColor
    setCurrentStatusView
  simp [h]

/-- Witness for C5. -/
theorem setters_are_local_before_init_witness :
    (setHeaderColor "#111111" initialWorld).remote = initialWorld.remote :=
  (setters_are_local_before_init initialWorld "#111111" "completed" "tasks"
    rfl).1.1

/-- C6: `setCaseStatusColor k c` maps `k` to `c` and changes nothing else:
the other entries of `caseStatusColors` read the same, and `taskStatusColors`
and every other PreferenceSet field are untouched. -/
theorem setCaseStatusColor_frame (w : World) (k c : String)
    (hk : k ∈ STATUS_KEYS) :
    objGet (setCaseStatusColor k c w).st.caseStatusColors k = some c ∧
    (∀ k', k' ≠ k →
      objGet (setCaseStatusColor k c w).st.caseStatusColors k' =
        objGet w.st.caseStatusColors k') ∧
    (setCaseStatusColor k c w).st.taskStatusColors = w.st.taskStatusColors ∧
    (setCaseStatusColor k c w).st.headerColor = w.st.headerColor ∧
    (setCaseStatusColor k c w).st.avatarColor = w.st.avatarColor ∧
    (setCaseStatusColor k c w).st.textColor = w.st.textColor ∧
    (setCaseStatusColor k c w).st.mainColor = w.st.mainColor ∧
    (setCaseStatusColor k c w).st.buttonColor = w.st.buttonColor ∧
    (setCaseStatusColor k c w).st.caseStatusTextColors =
      w.st.caseStatusTextColors ∧
    (setCaseStatusColor k c w).st.currentStatusView = w.st.currentStatusView :=
  ⟨objGet_objSet_self w.st.caseStatusColors k c,
   fun k' hk' => objGet_objSet_ne w.st.caseStatusColors k c k' hk',
   rfl, rfl, rfl, rfl, rfl, rfl, rfl, rfl⟩

/-- Witness for C6. -/
theorem setCaseStatusColor_frame_witness :
    objGet (setCaseStatusColor "delayed" "#101010" initialWorld).st.caseStatusColors
      "delayed" = some "#101010" :=
  (setCaseStatusColor_frame initialWorld "delayed" "#101010" (by decide)).1

/-- C7 counterexample: a payload with `headerColor` present but equal to the
empty string is not adopted — JS `||` treats it as falsy and the hardcoded
default wins. -/
theorem load_defaults_present_empty_string :
    ∃ st, loadThemeSettings (.result none (some { headerColor := some "" })) {}
        initialState = .ok st ∧ st.headerColor = "#8B9474" ∧ st.headerColor ≠ "" :=
  ⟨_, rfl, rfl, by decide⟩

/-- C7 (amended): on a present payload the load adopts each present truthy
field (non-empty strings; maps whenever present) and defaults each absent,
null, or empty-string field individually, then marks `initialized`; no field
is left undefined. -/
theorem load_payload_field_defaults (s : ThemeSettings) (ls : LocalStore)
    (st : ThemeState) :
    ∃ st', loadThemeSettings (.result none (some s)) ls st = .ok st' ∧
      st'.headerColor = jsOr s.headerColor "#8B9474" ∧
      st'.avatarColor = jsOr s.avatarColor "#F5A65B" ∧
      st'.textColor = jsOr s.textColor "text-white" ∧
      st'.mainColor = jsOr s.mainColor "#F3F4F6" ∧
      st'.buttonColor = jsOr s.buttonColor "#8B9474" ∧
      st'.caseStatusColors = s.caseStatusColors.getD DEFAULT_STATUS_COLORS ∧
      st'.taskStatusColors = s.taskStatusColors.getD DEFAULT_STATUS_COLORS ∧
      st'.caseStatusTextColors = s.caseStatusTextColors.getD DEFAULT_TEXT_COLORS ∧
      st'.initialized = true :=
  ⟨_, rfl, rfl, rfl, rfl, rfl, rfl, rfl, rfl, rfl, rfl⟩

/-- C8: `setCurrentStatusView` updates memory and the `praxis-status-view`
cache key and is restored by a fresh local load, but it never dispatches a
remote write, and no operation's remote writes depend on the in-memory
`currentStatusView` (the payload has no slot for it). -/
theorem setCurrentStatusView_local_only (w : World) (v : String) (hv : v ≠ "")
    (hcc : w.ls.caseStatusColors ≠ some none)
    (htc : w.ls.taskStatusColors ≠ some none)
    (hxc : w.ls.caseStatusTextColors ≠ some none) :
    (setCurrentStatusView v w).remote = w.remote ∧
    (setCurrentStatusView v w).st.currentStatusView = v ∧
    (setCurrentStatusView v w).ls.statusView = some v ∧
    (∃ st', loadFromLocalStorage (setCurrentStatusView v w).ls initialState =
        .ok st' ∧ st'.currentStatusView = v) ∧
    (∀ (op : Op) (v' : String),
      (runOp op { w with st := { w.st with currentStatusView := v' } }).remote =
        (runOp op w).remote) := by
  refine ⟨rfl, rfl, rfl, ?_, ?_⟩
  · rw [loadFromLocalStorage_ok ((setCurrentStatusView v w).ls) initialState
      (by simpa [setCurrentStatusView] using hcc)
      (by simpa [setCurrentStatusView] using htc)
      (by simpa [setCurrentStatusView] using hxc)]
    exact ⟨_, rfl, by simp [setCurrentStatusView, jsOr, hv]⟩
  · intro op v'
    cases op <;>
      simp [runOp, setHeaderColor, setAvatarColor, setTextColor, setMainColor,
        setButtonColor, setCaseStatusColor, setTaskStatusColor,
        setCaseStatusTextColor, setCurrentStatusView, initializeWorld_remote]

/-- Witness for C8. -/
theorem setCurrentStatusView_local_only_witness :
    (setCurrentStatusView "tasks" initialWorld).remote = initialWorld.remote ∧
    (setCurrentStatusView "tasks" initialWorld).st.currentStatusView = "tasks" := by
  have h := setCurrentStatusView_local_only initialWorld "tasks" (by decide)
    (by decide) (by decide) (by decide)
  exact ⟨h.1, h.2.1⟩

/-- C10 counterexample: the claim quantifies over every 6-character `h`, but
for `h` containing a `#` the removal shifts characters of the suffix into the
component slices: `#FF550` alone is dark, `#FF550F` is light. -/
theorem isLightColor_suffix_claim_fails :
    ("#FF550" : String).data.length = 6 ∧
    (∀ c ∈ ("F" : String).data, c ≠ '#') ∧
    isLightColor ("#FF550" ++ "F") = true ∧
    isLightColor "#FF550" = false :=
  ⟨rfl, by decide, rfl, rfl⟩

/-- C10 (amended): when the 6-character head contains no `#` (and the suffix
none either), `isLightColor` ignores the suffix entirely. -/
theorem isLightColor_ignores_suffix (h t : String)
    (hlen : h.data.length = 6)
    (hh : ∀ c ∈ h.data, c ≠ '#')
    (ht : ∀ c ∈ t.data, c ≠ '#') :
    isLightColor (h ++ t) = isLightColor h := by
  have hdata : (h ++ t).data = h.data ++ t.data := String.data_append h t
  have hnone : ∀ c ∈ h.data ++ t.data, c ≠ '#' := by
    intro c hc
    rcases List.mem_append.mp hc with hc | hc
    · exact hh c hc
    · exact ht c hc
  have key : ∀ a b : Nat, max a b ≤ 6 →
      jsSubstring (jsReplaceHash (h ++ t)) a b = jsSubstring (jsReplaceHash h) a b := by
    intro a b hab
    unfold jsSubstring jsReplaceHash
    rw [hdata, removeFirstHashL_of_no_hash hnone, removeFirstHashL_of_no_hash hh]
    have : (h.data ++ t.data).take (max a b) = h.data.take (max a b) :=
      List.take_append_of_le_length (by omega)
    rw [this]
  unfold isLightColor
  rw [key 0 2 (by omega), key 2 4 (by omega), key 4 6 (by omega)]

/-- Witness for C10. -/
theorem isLightColor_ignores_suffix_witness :
    isLightColor ("ABCDEF" ++ "00") = isLightColor "ABCDEF" :=
  isLightColor_ignores_suffix "ABCDEF" "00" rfl (by decide) (by decide)

/-! ### Round trip of setter sequences (C2) -/

/-- Setter calls of claim C2: no mount-time load, and a non-empty value for
the scalar setters (JS `||` on `getItem` treats the empty string as absent,
so an empty value cannot round-trip). -/
def setterOk : Op → Prop
  | .setHeader c => c ≠ ""
  | .setAvatar c => c ≠ ""
  | .setText _ => True
  | .setMain c => c ≠ ""
  | .setButton c => c ≠ ""
  | .setCaseStatus _ _ => True
  | .setTaskStatus _ _ => True
  | .setCaseStatusText _ _ => True
  | .setView v => v ≠ ""
  | .init _ => False

/-- The in-memory map agrees with what the cached JSON value reads back as. -/
def cacheSync (v : Option (Option StatusMap)) (d cur : StatusMap) : Prop :=
  match v with
  | none => cur = d
  | some (some m) => cur = m
  | some none => False

/-- Every in-memory field agrees with what a fresh cache read would produce
(except `textColor`, which the load derives from the header color). -/
def SyncInv (w : World) : Prop :=
  w.st.headerColor = jsOr w.ls.headerColor "#8B9474" ∧
  w.st.avatarColor = jsOr w.ls.avatarColor "#F5A65B" ∧
  w.st.mainColor = jsOr w.ls.mainColor "#F3F4F6" ∧
  w.st.buttonColor = jsOr w.ls.buttonColor "#8B9474" ∧
  cacheSync w.ls.caseStatusColors DEFAULT_STATUS_COLORS w.st.caseStatusColors ∧
  cacheSync w.ls.taskStatusColors DEFAULT_STATUS_COLORS w.st.taskStatusColors ∧
  cacheSync w.ls.caseStatusTextColors DEFAULT_TEXT_COLORS
    w.st.caseStatusTextColors ∧
  w.st.currentStatusView = jsOr w.ls.statusView "cases"

theorem syncInv_initialWorld : SyncInv initialWorld :=
  ⟨rfl, rfl, rfl, rfl, rfl, rfl, rfl, rfl⟩

theorem syncInv_runOp {w : World} (hw : SyncInv w) (op : Op)
    (hop : setterOk op) : SyncInv (runOp op w) := by
  obtain ⟨h1, h2, h3, h4, h5, h6, h7, h8⟩ := hw
  cases op with
  | setHeader c =>
    have hc : c ≠ "" := hop
    exact ⟨by simp [runOp, setHeaderColor, jsOr, hc], h2, h3, h4, h5, h6, h7, h8⟩
  | setAvatar c =>
    have hc : c ≠ "" := hop
    exact ⟨h1, by simp [runOp, setAvatarColor, jsOr, hc], h3, h4, h5, h6, h7, h8⟩
  | setText c =>
    exact ⟨h1, h2, h3, h4, h5, h6, h7, h8⟩
  | setMain c =>
    have hc : c ≠ "" := hop
    exact ⟨h1, h2, by simp [runOp, setMainColor, jsOr, hc], h4, h5, h6, h7, h8⟩
  | setButton c =>
    have hc : c ≠ "" := hop
    exact ⟨h1, h2, h3, by simp [runOp, setButtonColor, jsOr, hc], h5, h6, h7, h8⟩
  | setCaseStatus k c =>
    exact ⟨h1, h2, h3, h4, rfl, h6, h7, h8⟩
  | setTaskStatus k c =>
    exact ⟨h1, h2, h3, h4, h5, rfl, h7, h8⟩
  | setCaseStatusText k c =>
    exact ⟨h1, h2, h3, h4, h5, h6, rfl, h8⟩
  | setView v =>
    have hv : v ≠ "" := hop
    exact ⟨h1, h2, h3, h4, h5, h6, h7,
      by simp [runOp, setCurrentStatusView, jsOr, hv]⟩
  | init r => exact hop.elim

theorem syncInv_run (ops : List Op) (h : ∀ op ∈ ops, setterOk op)
    {w : World} (hw : SyncInv w) : SyncInv (run ops w) := by
  induction ops generalizing w with
  | nil => exact hw
  | cons op t ih =>
    exact ih (fun o ho => h o (List.mem_cons_of_mem _ ho))
      (syncInv_runOp hw op (h op (List.mem_cons_self _ _)))

theorem cacheSync_ne {v : Option (Option StatusMap)} {d cur : StatusMap}
    (h : cacheSync v d cur) : v ≠ some none := by
  intro hv
  rw [hv] at h
  exact h

theorem cacheSync_match {v : Option (Option StatusMap)} {d cur : StatusMap}
    (h : cacheSync v d cur) : readCache v d = cur := by
  unfold readCache
  rcases v with _ | (_ | m)
  · exact h.symm
  · exact h.elim
  · exact h.symm

/-- C2 (amended): after any sequence of setter calls with non-empty values, a
fresh no-session load from the cache reproduces every PreferenceSet field
except `textColor`, which is recomputed as the contrast class of the cached
header color rather than read back; it equals the previously set value only
when that value coincides with the derived one. -/
theorem roundtrip_reproduces_all_but_textColor (ops : List Op)
    (h : ∀ op ∈ ops, setterOk op) :
    ∃ st', loadFromLocalStorage (run ops initialWorld).ls initialState =
        .ok st' ∧
      st'.headerColor = (run ops initialWorld).st.headerColor ∧
      st'.avatarColor = (run ops initialWorld).st.avatarColor ∧
      st'.mainColor = (run ops initialWorld).st.mainColor ∧
      st'.buttonColor = (run ops initialWorld).st.buttonColor ∧
      st'.caseStatusColors = (run ops initialWorld).st.caseStatusColors ∧
      st'.taskStatusColors = (run ops initialWorld).st.taskStatusColors ∧
      st'.caseStatusTextColors = (run ops initialWorld).st.caseStatusTextColors ∧
      st'.currentStatusView = (run ops initialWorld).st.currentStatusView ∧
      st'.textColor = (if isLightColor (run ops initialWorld).st.headerColor
        then "text-gray-800" else "text-white") := by
  obtain ⟨h1, h2, h3, h4, h5, h6, h7, h8⟩ :=
    syncInv_run ops h syncInv_initialWorld
  rw [loadFromLocalStorage_ok _ _ (cacheSync_ne h5) (cacheSync_ne h6)
    (cacheSync_ne h7)]
  refine ⟨_, rfl, h1.symm, h2.symm, h3.symm, h4.symm, cacheSync_match h5,
    cacheSync_match h6, cacheSync_match h7, h8.symm, ?_⟩
  rw [h1]

/-- Witness for C2 (amended). -/
theorem roundtrip_reproduces_all_but_textColor_witness :
    ∃ st', loadFromLocalStorage (run [Op.setHeader "#000000"] initialWorld).ls
        initialState = .ok st' ∧
      st'.headerColor = (run [Op.setHeader "#000000"] initialWorld).st.headerColor ∧
      st'.avatarColor = (run [Op.setHeader "#000000"] initialWorld).st.avatarColor ∧
      st'.mainColor = (run [Op.setHeader "#000000"] initialWorld).st.mainColor ∧
      st'.buttonColor = (run [Op.setHeader "#000000"] initialWorld).st.buttonColor ∧
      st'.caseStatusColors =
        (run [Op.setHeader "#000000"] initialWorld).st.caseStatusColors ∧
      st'.taskStatusColors =
        (run [Op.setHeader "#000000"] initialWorld).st.taskStatusColors ∧
      st'.caseStatusTextColors =
        (run [Op.setHeader "#000000"] initialWorld).st.caseStatusTextColors ∧
      st'.currentStatusView =
        (run [Op.setHeader "#000000"] initialWorld).st.currentStatusView ∧
      st'.textColor =
        (if isLightColor (run [Op.setHeader "#000000"] initialWorld).st.headerColor
          then "text-gray-800" else "text-white") :=
  roundtrip_reproduces_all_but_textColor [Op.setHeader "#000000"] (by
    intro op hop
    simp only [List.mem_singleton] at hop
    subst hop
    exact (by decide : ("#000000" : String) ≠ ""))

/-! ### The four fixed status keys (C9) -/

/-- The map's key list is exactly the four fixed keys (as a multiset: none
absent, none extraneous, none duplicated). -/
def exactKeys (m : StatusMap) : Prop :=
  (m.map Prod.fst).Perm STATUS_KEYS

def optMapKeysOk : Option StatusMap → Prop
  | some m => exactKeys m
  | none => True

def cacheKeysOk : Option (Option StatusMap) → Prop
  | some (some m) => exactKeys m
  | _ => True

def settingsKeysOk : Option ThemeSettings → Prop
  | some s => optMapKeysOk s.caseStatusColors ∧
      optMapKeysOk s.taskStatusColors ∧ optMapKeysOk s.caseStatusTextColors
  | none => True

/-- The remote payload maps, when present, conform to `StatusColorsType`
(exactly the four keys), as the source's TS types declare. -/
def remoteKeysOk : RemoteOutcome → Prop
  | .result _ s => settingsKeysOk s
  | _ => True

/-- Operation arguments conform to the source's TS types: status setters take
one of the four fixed keys (`keyof StatusColorsType`), loads carry conforming
payloads. -/
def opKeysOk : Op → Prop
  | .setCaseStatus k _ => k ∈ STATUS_KEYS
  | .setTaskStatus k _ => k ∈ STATUS_KEYS
  | .setCaseStatusText k _ => k ∈ STATUS_KEYS
  | .init r => remoteKeysOk r
  | _ => True

def stateKeysOk (st : ThemeState) : Prop :=
  exactKeys st.caseStatusColors ∧ exactKeys st.taskStatusColors ∧
  exactKeys st.caseStatusTextColors

def KeysInv (w : World) : Prop :=
  stateKeysOk w.st ∧
  cacheKeysOk w.ls.caseStatusColors ∧ cacheKeysOk w.ls.taskStatusColors ∧
  cacheKeysOk w.ls.caseStatusTextColors

theorem exactKeys_default_status : exactKeys DEFAULT_STATUS_COLORS :=
  List.Perm.refl _

theorem exactKeys_default_text : exactKeys DEFAULT_TEXT_COLORS :=
  List.Perm.refl _

theorem exactKeys_objSet {m : StatusMap} (hm : exactKeys m) {k : String}
    (hk : k ∈ STATUS_KEYS) (v : String) : exactKeys (objSet m k v) := by
  have hmem : m.any (fun p => p.1 = k) = true := by
    have hkm : k ∈ m.map Prod.fst := hm.mem_iff.mpr hk
    rcases List.mem_map.mp hkm with ⟨p, hp, hpk⟩
    exact List.any_eq_true.mpr ⟨p, hp, by simp [hpk]⟩
  unfold objSet exactKeys
  rw [if_pos hmem]
  have hmap : (m.map (fun p => if p.1 = k then (p.1, v) else p)).map Prod.fst =
      m.map Prod.fst := by
    rw [List.map_map]
    apply List.map_congr_left
    intro p hp
    simp only [Function.comp_apply]
    split <;> rfl
  rw [hmap]
  exact hm

theorem stateKeysOk_load {ls : LocalStore} {st : ThemeState}
    (hst : stateKeysOk st)
    (h1 : cacheKeysOk ls.caseStatusColors)
    (h2 : cacheKeysOk ls.taskStatusColors)
    (h3 : cacheKeysOk ls.caseStatusTextColors) :
    stateKeysOk (match loadFromLocalStorage ls st with
      | .ok s => s
      | .error s => s) := by
  rcases hc : ls.caseStatusColors with _ | (_ | mc) <;>
    rcases ht : ls.taskStatusColors with _ | (_ | mt) <;>
      rcases hx : ls.caseStatusTextColors with _ | (_ | mx) <;>
        simp_all [loadFromLocalStorage, stateKeysOk, cacheKeysOk,
          exactKeys_default_status, exactKeys_default_text]

theorem stateKeysOk_load_any {ls : LocalStore} {st s : ThemeState}
    (hst : stateKeysOk st)
    (h1 : cacheKeysOk ls.caseStatusColors)
    (h2 : cacheKeysOk ls.taskStatusColors)
    (h3 : cacheKeysOk ls.caseStatusTextColors)
    (hs : loadFromLocalStorage ls st = .ok s ∨
      loadFromLocalStorage ls st = .error s) :
    stateKeysOk s := by
  have hm := stateKeysOk_load hst h1 h2 h3
  rcases hs with hs | hs <;> rw [hs] at hm <;> exact hm

theorem stateKeysOk_localThenInit_any {ls : LocalStore} {st s : ThemeState}
    (hst : stateKeysOk st)
    (h1 : cacheKeysOk ls.caseStatusColors)
    (h2 : cacheKeysOk ls.taskStatusColors)
    (h3 : cacheKeysOk ls.caseStatusTextColors)
    (hs : localThenInit ls st = .ok s ∨ localThenInit ls st = .error s) :
    stateKeysOk s := by
  unfold localThenInit at hs
  rcases hL : loadFromLocalStorage ls st with s1 | s1 <;> simp only [hL] at hs
  · -- first load threw with partial state s1; catch runs a second load
    have hk1 : stateKeysOk s1 := stateKeysOk_load_any hst h1 h2 h3 (Or.inr hL)
    rcases hL2 : loadFromLocalStorage ls s1 with s2 | s2 <;>
      simp only [hL2] at hs <;> rcases hs with hs | hs
    · exact absurd hs (by simp)
    · injection hs with hs
      subst hs
      exact stateKeysOk_load_any hk1 h1 h2 h3 (Or.inr hL2)
    · injection hs with hs
      subst hs
      have hk2 := stateKeysOk_load_any hk1 h1 h2 h3 (Or.inl hL2)
      exact hk2
    · exact absurd hs (by simp)
  · rcases hs with hs | hs
    · injection hs with hs
      subst hs
      have hk2 := stateKeysOk_load_any hst h1 h2 h3 (Or.inl hL)
      exact hk2
    · exact absurd hs (by simp)

theorem stateKeysOk_applySettings (s0 : ThemeSettings) (st : ThemeState)
    (hA : optMapKeysOk s0.caseStatusColors)
    (hB : optMapKeysOk s0.taskStatusColors)
    (hC : optMapKeysOk s0.caseStatusTextColors) :
    stateKeysOk (applySettings s0 st) := by
  refine ⟨?_, ?_, ?_⟩
  · show exactKeys (s0.caseStatusColors.getD DEFAULT_STATUS_COLORS)
    rcases hm : s0.caseStatusColors with _ | m
    · exact exactKeys_default_status
    · rw [hm] at hA
      exact hA
  · show exactKeys (s0.taskStatusColors.getD DEFAULT_STATUS_COLORS)
    rcases hm : s0.taskStatusColors with _ | m
    · exact exactKeys_default_status
    · rw [hm] at hB
      exact hB
  · show exactKeys (s0.caseStatusTextColors.getD DEFAULT_TEXT_COLORS)
    rcases hm : s0.caseStatusTextColors with _ | m
    · exact exactKeys_default_text
    · rw [hm] at hC
      exact hC

theorem stateKeysOk_loadTheme_any {r : RemoteOutcome} {ls : LocalStore}
    {st s : ThemeState} (hst : stateKeysOk st)
    (h1 : cacheKeysOk ls.caseStatusColors)
    (h2 : cacheKeysOk ls.taskStatusColors)
    (h3 : cacheKeysOk ls.caseStatusTextColors)
    (hr : remoteKeysOk r)
    (hs : loadThemeSettings r ls st = .ok s ∨
      loadThemeSettings r ls st = .error s) :
    stateKeysOk s := by
  cases r with
  | noUser => exact stateKeysOk_localThenInit_any hst h1 h2 h3 hs
  | throws =>
    unfold loadThemeSettings at hs
    rcases hL : loadFromLocalStorage ls st with s1 | s1 <;>
      simp only [hL] at hs <;> rcases hs with hs | hs
    · exact absurd hs (by simp)
    · injection hs with hs
      subst hs
      exact stateKeysOk_load_any hst h1 h2 h3 (Or.inr hL)
    · injection hs with hs
      subst hs
      have hk2 := stateKeysOk_load_any hst h1 h2 h3 (Or.inl hL)
      exact hk2
    · exact absurd hs (by simp)
  | result err settings =>
    have hsol : ∀ s0 : Option ThemeSettings, settingsKeysOk s0 →
        (settingsOrLocal s0 ls st = .ok s ∨ settingsOrLocal s0 ls st = .error s) →
        stateKeysOk s := by
      intro s0 hks hs0
      rcases s0 with _ | s0
      · exact stateKeysOk_localThenInit_any hst h1 h2 h3 hs0
      · obtain ⟨hA, hB, hC⟩ := hks
        unfold settingsOrLocal at hs0
        rcases hs0 with hs0 | hs0
        · injection hs0 with hs0
          subst hs0
          have hk2 := stateKeysOk_applySettings s0 st hA hB hC
          exact hk2
        · exact absurd hs0 (by simp)
    rcases err with _ | code
    · exact hsol settings hr hs
    · replace hs : (if code = "PGRST116" then settingsOrLocal settings ls st
          else localThenInit ls st) = Except.ok s ∨
          (if code = "PGRST116" then settingsOrLocal settings ls st
          else localThenInit ls st) = Except.error s := hs
      by_cases hcode : code = "PGRST116"
      · rw [if_pos hcode] at hs
        exact hsol settings hr hs
      · rw [if_neg hcode] at hs
        exact stateKeysOk_localThenInit_any hst h1 h2 h3 hs

theorem keysInv_runOp {w : World} (hw : KeysInv w) {op : Op}
    (hop : opKeysOk op) : KeysInv (runOp op w) := by
  obtain ⟨⟨hs1, hs2, hs3⟩, hl1, hl2, hl3⟩ := hw
  cases op with
  | setHeader c => exact ⟨⟨hs1, hs2, hs3⟩, hl1, hl2, hl3⟩
  | setAvatar c => exact ⟨⟨hs1, hs2, hs3⟩, hl1, hl2, hl3⟩
  | setText c => exact ⟨⟨hs1, hs2, hs3⟩, hl1, hl2, hl3⟩
  | setMain c => exact ⟨⟨hs1, hs2, hs3⟩, hl1, hl2, hl3⟩
  | setButton c => exact ⟨⟨hs1, hs2, hs3⟩, hl1, hl2, hl3⟩
  | setView v => exact ⟨⟨hs1, hs2, hs3⟩, hl1, hl2, hl3⟩
  | setCaseStatus k c =>
    have hk : k ∈ STATUS_KEYS := hop
    exact ⟨⟨exactKeys_objSet hs1 hk c, hs2, hs3⟩,
      exactKeys_objSet hs1 hk c, hl2, hl3⟩
  | setTaskStatus k c =>
    have hk : k ∈ STATUS_KEYS := hop
    exact ⟨⟨hs1, exactKeys_objSet hs2 hk c, hs3⟩,
      hl1, exactKeys_objSet hs2 hk c, hl3⟩
  | setCaseStatusText k c =>
    have hk : k ∈ STATUS_KEYS := hop
    exact ⟨⟨hs1, hs2, exactKeys_objSet hs3 hk c⟩,
      hl1, hl2, exactKeys_objSet hs3 hk c⟩
  | init r =>
    have hr : remoteKeysOk r := hop
    show KeysInv (initializeWorld r w)
    unfold initializeWorld
    rcases hL : loadThemeSettings r w.ls w.st with s1 | s1
    · exact ⟨stateKeysOk_loadTheme_any ⟨hs1, hs2, hs3⟩ hl1 hl2 hl3 hr
        (Or.inr hL), hl1, hl2, hl3⟩
    · exact ⟨stateKeysOk_loadTheme_any ⟨hs1, hs2, hs3⟩ hl1 hl2 hl3 hr
        (Or.inl hL), hl1, hl2, hl3⟩

theorem keysInv_run (ops : List Op) (h : ∀ op ∈ ops, opKeysOk op)
    {w : World} (hw : KeysInv w) : KeysInv (run ops w) := by
  induction ops generalizing w with
  | nil => exact hw
  | cons op t ih =>
    exact ih (fun o ho => h o (List.mem_cons_of_mem _ ho))
      (keysInv_runOp hw (h op (List.mem_cons_self _ _)))

/-- C9: after any sequence of operations whose arguments conform to the
source's TS types (status keys among the four, payload maps of shape
`StatusColorsType`), the three in-memory status-color mappings hold exactly
the four fixed keys — none absent, none extraneous. -/
theorem statusMaps_exactly_four_keys (ops : List Op)
    (h : ∀ op ∈ ops, opKeysOk op) :
    exactKeys (run ops initialWorld).st.caseStatusColors ∧
    exactKeys (run ops initialWorld).st.taskStatusColors ∧
    exactKeys (run ops initialWorld).st.caseStatusTextColors := by
  have hinv : KeysInv (run ops initialWorld) :=
    keysInv_run ops h
      ⟨⟨List.Perm.refl _, List.Perm.refl _, List.Perm.refl _⟩,
        trivial, trivial, trivial⟩
  exact hinv.1

/-- Witness for C9. -/
theorem statusMaps_exactly_four_keys_witness :
    exactKeys (run [Op.init .noUser, Op.setCaseStatus "completed" "#0F0F0F"]
      initialWorld).st.caseStatusColors ∧
    exactKeys (run [Op.init .noUser, Op.setCaseStatus "completed" "#0F0F0F"]
      initialWorld).st.taskStatusColors ∧
    exactKeys (run [Op.init .noUser, Op.setCaseStatus "completed" "#0F0F0F"]
      initialWorld).st.caseStatusTextColors :=
  statusMaps_exactly_four_keys
    [Op.init .noUser, Op.setCaseStatus "completed" "#0F0F0F"] (by
      intro op hop
      simp only [List.mem_cons, List.not_mem_nil, or_false] at hop
      rcases hop with rfl | rfl
      · exact trivial
      · exact (by decide : ("completed" : String) ∈ STATUS_KEYS))

end Theme
